import Mathlib

/-!
# Verification of `user_management/api/serializers.py`

A shallow embedding of the serializer module of the repository
`django-user-management` (file `src/user_management/api/serializers.py`),
together with theorems settling the specification's claims about it.

Conventions of the embedding:
* The persisted account table is a `List Account`.
* A Django/DRF `ValidationError` is a `ValidationError` record carrying the
  field it is tagged to (`none` for a non-field error raised inside a
  field-level validator, which the framework attributes to that field; we
  record the field explicitly) and the message string from the source.
* A serializer method that can `raise serializers.ValidationError` becomes a
  function into `Except ValidationError _` (fail-fast, as a Python `raise`
  aborts the method); the framework's per-field validation phase, which
  collects errors from all field validators, becomes a function producing a
  `List ValidationError`.
* Stateful updates of a model instance become explicit state passing: an
  `update` method returns the (possibly unchanged) instance together with
  `Option ValidationError`; a raise before any mutation returns the original
  instance.
* The external password hashing primitive and the external password strength
  policy are parameters (`hash : String → String`, `strength : String → Bool`).
-/

/-- The persisted user record, from the spec's data model: name, email
(natural login key), stored password hash, join timestamp, and the
email-verification flag used by the confirmation flow. -/
structure Account where
  name : String
  email : String
  passwordHash : String
  dateJoined : Nat
  email_verification_required : Bool
deriving Repr, DecidableEq

/-- A validation error: the field it is tagged to (as in
`raise ValidationError({'password2': msg})`, or the field whose validator
raised it) and the message from the source. -/
structure ValidationError where
  field : Option String
  msg : String
deriving Repr, DecidableEq

/-- Python's `str.lower()` on the ASCII range, as a structurally recursive
map over the string's characters. -/
def strToLower (s : String) : String :=
  ⟨s.data.map Char.toLower⟩

/-- Modelled from the spec: the account-record persistence interface's
lookup-by-natural-key (`User.objects.get_by_natural_key`), which is not under
`src/`. The spec describes it as lookup of an account by its email natural
key; we model it as exact-match retrieval over the stored accounts, emails
being stored lowercased per the spec's normalization invariant. Returns the
found account or `none` (`User.DoesNotExist`). -/
def get_by_natural_key (db : List Account) (email : String) : Option Account :=
  db.find? (fun a => a.email == email)

namespace ValidateEmailMixin

/-- `ValidateEmailMixin.validate_email`: lowercase the submitted value, look
the lowercased address up by natural key; if no account exists return the
lowercased email, otherwise raise the duplicate-email error. -/
def validate_email (db : List Account) (value : String) :
    Except ValidationError String :=
  let email := strToLower value
  match get_by_natural_key db email with
  | none => .ok email
  | some _ =>
      .error ⟨some "email", "That email address has already been registered."⟩

end ValidateEmailMixin

/-- The raw registration payload: the `fields` of `RegistrationSerializer`
(`name`, `email`, `password`, `password2`). -/
structure RegistrationInput where
  name : String
  email : String
  password : String
  password2 : String
deriving Repr, DecidableEq

/-- The data handed to `RegistrationSerializer.create` after `validate`
popped `password2`: it has no `password2` component. -/
structure RegistrationValidatedData where
  name : String
  email : String
  password : String
deriving Repr, DecidableEq

/-- The error message a `CharField` with `min_length=8` produces, tagged to
its field. -/
def minLengthError (field : String) : ValidationError :=
  ⟨some field, "Ensure this field has at least 8 characters."⟩

/-- The DRF `min_length` check of a `CharField`: a value shorter than the
bound yields one error tagged to the field. -/
def minLengthErrors (m : Nat) (field value : String) : List ValidationError :=
  if value.length < m then [minLengthError field] else []

/-- Modelled from the spec: `validate_password_strength`
(`user_management.utils.validators`, not under `src/`), the external
strength policy — "an external predicate rejecting weak passwords by
unspecified criteria" — applied as a field validator. We take the predicate
as a parameter and tag its failure to the field. -/
def strengthErrors (strength : String → Bool) (field value : String) :
    List ValidationError :=
  if strength value then [] else [⟨some field, "This password is too weak."⟩]

/-- The field-level validation of a password `CharField` declared with
`min_length=8` and `validators=[validate_password_strength]`: the framework
runs all validators of the field and collects their errors. -/
def passwordFieldErrors (strength : String → Bool) (field value : String) :
    List ValidationError :=
  minLengthErrors 8 field value ++ strengthErrors strength field value

namespace RegistrationSerializer

/-- `RegistrationSerializer.validate`: pop `password2` out of the attrs,
raise the mismatch error tagged to `password2` if it differs from
`password`, otherwise return the remaining attrs (without `password2`). -/
def validate (attrs : RegistrationInput) :
    Except ValidationError RegistrationValidatedData :=
  let password2 := attrs.password2
  if password2 ≠ attrs.password then
    .error ⟨some "password2", "Your passwords do not match."⟩
  else
    .ok ⟨attrs.name, attrs.email, attrs.password⟩

/-- `RegistrationSerializer.create`: `User.objects.create(**validated_data)`
— the account is built from the validated data alone; the timestamp is
supplied by the persistence layer. -/
def create (d : RegistrationValidatedData) (dateJoined : Nat)
    (verificationRequired : Bool) : Account :=
  { name := d.name, email := d.email, passwordHash := d.password,
    dateJoined := dateJoined,
    email_verification_required := verificationRequired }

/-- The per-field validation phase of the serializer: the errors of the
`email` field (its `validate_email` hook from `ValidateEmailMixin`), of the
`password` field (`min_length=8` plus the strength policy) and of the
`password2` field (`min_length=8`); `name` has no validators. -/
def fieldErrors (strength : String → Bool) (db : List Account)
    (i : RegistrationInput) : List ValidationError :=
  (match ValidateEmailMixin.validate_email db i.email with
    | .ok _ => []
    | .error e => [e])
  ++ passwordFieldErrors strength "password" i.password
  ++ minLengthErrors 8 "password2" i.password2

/-- The `email` value entering the attrs: the output of `validate_email`
(the lowercased email) when it succeeded. -/
def validatedEmail (db : List Account) (i : RegistrationInput) : String :=
  match ValidateEmailMixin.validate_email db i.email with
  | .ok e => e
  | .error _ => i.email

/-- The serializer's whole validation pass (DRF `is_valid`): run each field's
validators and the `validate_email` hook, collecting per-field errors; if any
field erred the submission fails with those errors, otherwise the
object-level `validate` runs on the attrs. -/
def run (strength : String → Bool) (db : List Account)
    (i : RegistrationInput) :
    Except (List ValidationError) RegistrationValidatedData :=
  if fieldErrors strength db i = [] then
    match validate ⟨i.name, validatedEmail db i, i.password, i.password2⟩ with
    | .ok d => .ok d
    | .error e => .error [e]
  else .error (fieldErrors strength db i)

end RegistrationSerializer

/-- The payload of `PasswordChangeSerializer`: its `fields`
(`old_password`, `new_password`, `new_password2`). -/
structure PasswordChangeInput where
  old_password : String
  new_password : String
  new_password2 : String
deriving Repr, DecidableEq

/-- Modelled from the spec: the password-hash verify primitive
(`instance.check_password`, external collaborator): the submitted raw
password verifies iff its hash equals the stored hash, the hashing function
being a parameter. -/
def check_password (hash : String → String) (raw : String) (inst : Account) :
    Bool :=
  hash raw == inst.passwordHash

/-- Modelled from the spec: the password-hash set primitive
(`instance.set_password`, external collaborator): replace the stored hash
with the hash of the raw password. -/
def set_password (hash : String → String) (raw : String) (inst : Account) :
    Account :=
  { inst with passwordHash := hash raw }

namespace PasswordChangeSerializer

/-- `PasswordChangeSerializer.validate`: raise the mismatch error tagged to
`new_password2` when the two new passwords differ, else return the attrs. -/
def validate (attrs : PasswordChangeInput) :
    Except ValidationError PasswordChangeInput :=
  if attrs.new_password ≠ attrs.new_password2 then
    .error ⟨some "new_password2", "Your new passwords do not match."⟩
  else .ok attrs

/-- `PasswordChangeSerializer.update`: raise the invalid-password error
tagged to `old_password` when the submitted old password does not verify
against the stored hash — the raise happens before any mutation, so the
instance is returned unchanged — otherwise set the new password. -/
def update (hash : String → String) (inst : Account)
    (vd : PasswordChangeInput) : Account × Option ValidationError :=
  if ¬ check_password hash vd.old_password inst then
    (inst, some ⟨some "old_password", "Invalid password."⟩)
  else
    (set_password hash vd.new_password inst, none)

/-- The per-field validation phase: `old_password` is a bare `CharField`
with no validators; the two new-password fields carry `min_length=8`,
`new_password` also the strength policy. -/
def fieldErrors (strength : String → Bool) (i : PasswordChangeInput) :
    List ValidationError :=
  passwordFieldErrors strength "new_password" i.new_password
  ++ minLengthErrors 8 "new_password2" i.new_password2

/-- The serializer's whole validation pass (DRF `is_valid`): if any field
erred the submission fails with those errors, otherwise `validate` runs. -/
def is_valid (strength : String → Bool) (i : PasswordChangeInput) :
    Except (List ValidationError) PasswordChangeInput :=
  if fieldErrors strength i = [] then
    match validate i with
    | .ok d => .ok d
    | .error e => .error [e]
  else .error (fieldErrors strength i)

end PasswordChangeSerializer

/-- The payload of `PasswordResetSerializer`: its `fields`
(`new_password`, `new_password2`). -/
structure PasswordResetInput where
  new_password : String
  new_password2 : String
deriving Repr, DecidableEq

namespace PasswordResetSerializer

/-- `PasswordResetSerializer.validate`: raise the mismatch error tagged to
`new_password2` when the two new passwords differ, else return the attrs. -/
def validate (attrs : PasswordResetInput) :
    Except ValidationError PasswordResetInput :=
  if attrs.new_password ≠ attrs.new_password2 then
    .error ⟨some "new_password2", "Your new passwords do not match."⟩
  else .ok attrs

/-- `PasswordResetSerializer.update`: set the new password for the user —
unconditionally, with no old-password check. -/
def update (hash : String → String) (inst : Account)
    (vd : PasswordResetInput) : Account × Option ValidationError :=
  (set_password hash vd.new_password inst, none)

/-- The per-field validation phase: both fields carry `min_length=8`,
`new_password` also the strength policy. -/
def fieldErrors (strength : String → Bool) (i : PasswordResetInput) :
    List ValidationError :=
  passwordFieldErrors strength "new_password" i.new_password
  ++ minLengthErrors 8 "new_password2" i.new_password2

/-- The serializer's whole validation pass (DRF `is_valid`): if any field
erred the submission fails with those errors, otherwise `validate` runs. -/
def is_valid (strength : String → Bool) (i : PasswordResetInput) :
    Except (List ValidationError) PasswordResetInput :=
  if fieldErrors strength i = [] then
    match validate i with
    | .ok d => .ok d
    | .error e => .error [e]
  else .error (fieldErrors strength i)

end PasswordResetSerializer

/-- A profile/user update payload: caller-supplied values for any subset of
the serializer's declared fields (`url` is the hyperlinked identity of
`UserSerializer`, never a model attribute). -/
structure UpdatePayload where
  url : Option String
  name : Option String
  email : Option String
  date_joined : Option Nat
deriving Repr, DecidableEq

/-- Set one named model attribute of the account from the payload, when the
payload carries a value for it; a field name that is not a writable model
attribute (`url`, the framework's read-only identity field) changes
nothing. -/
def applyField (inst : Account) (field : String) (p : UpdatePayload) :
    Account :=
  if field == "name" then
    match p.name with
    | some n => { inst with name := n }
    | none => inst
  else if field == "email" then
    match p.email with
    | some e => { inst with email := e }
    | none => inst
  else if field == "date_joined" then
    match p.date_joined with
    | some d => { inst with dateJoined := d }
    | none => inst
  else inst

/-- The writable fields of a model serializer: its declared `fields` minus
its `read_only_fields` — only these can receive caller-supplied input. -/
def writableFields (fields ro : List String) : List String :=
  fields.filter (fun f => ¬ ro.contains f)

/-- The framework's `ModelSerializer.update` semantics: caller-supplied
values are applied to the writable fields only; read-only fields never enter
the validated data. -/
def serializerUpdate (fields ro : List String) (inst : Account)
    (p : UpdatePayload) : Account :=
  (writableFields fields ro).foldl (fun acc f => applyField acc f p) inst

namespace ProfileSerializer

/-- `ProfileSerializer.Meta.fields`. -/
def fields : List String := ["name", "email", "date_joined"]

/-- `ProfileSerializer.Meta.read_only_fields`. -/
def read_only_fields : List String := ["email", "date_joined"]

/-- Applying a caller-supplied payload through `ProfileSerializer`. -/
def update (inst : Account) (p : UpdatePayload) : Account :=
  serializerUpdate fields read_only_fields inst p

end ProfileSerializer

namespace UserSerializer

/-- `UserSerializer.Meta.fields`. -/
def fields : List String := ["url", "name", "email", "date_joined"]

/-- `UserSerializer.Meta.read_only_fields`. -/
def read_only_fields : List String := ["email", "date_joined"]

/-- Applying a caller-supplied payload through `UserSerializer`. -/
def update (inst : Account) (p : UpdatePayload) : Account :=
  serializerUpdate fields read_only_fields inst p

end UserSerializer

namespace ResendConfirmationEmailSerializer

/-- `ResendConfirmationEmailSerializer.validate_email`: look the submitted
email up by natural key (as submitted — no lowercasing); raise the not-found
error when no account matches; raise the already-verified error when the
found account does not require email verification; otherwise return the
email together with the resolved account (the `self.user` attribute exposed
to the view). -/
def validate_email (db : List Account) (email : String) :
    Except ValidationError (String × Account) :=
  match get_by_natural_key db email with
  | none =>
      .error ⟨some "email", "A user with this email address does not exist."⟩
  | some user =>
      if ¬ user.email_verification_required then
        .error ⟨some "email", "User email address is already verified."⟩
      else
        .ok (email, user)

end ResendConfirmationEmailSerializer

/-- A concrete stored account used to instantiate theorems: email stored
lowercased, email verification still required. -/
def sampleAccount : Account :=
  { name := "Alice", email := "foo@bar.com", passwordHash := "h0",
    dateJoined := 0, email_verification_required := true }

/-- A concrete stored account whose email is already verified. -/
def verifiedAccount : Account :=
  { name := "Bob", email := "bob@bar.com", passwordHash := "h1",
    dateJoined := 1, email_verification_required := false }

/-- If some field erred, the registration pass fails with the collected
field errors (the object-level `validate` is never reached). -/
theorem registration_run_error_of_mem {strength : String → Bool}
    {db : List Account} {i : RegistrationInput} {e : ValidationError}
    (h : e ∈ RegistrationSerializer.fieldErrors strength db i) :
    RegistrationSerializer.run strength db i =
      .error (RegistrationSerializer.fieldErrors strength db i) := by
  simp only [RegistrationSerializer.run]
  rw [if_neg (List.ne_nil_of_mem h)]

/-- If some field erred, the password-change pass fails with the collected
field errors. -/
theorem change_is_valid_error_of_mem {strength : String → Bool}
    {i : PasswordChangeInput} {e : ValidationError}
    (h : e ∈ PasswordChangeSerializer.fieldErrors strength i) :
    PasswordChangeSerializer.is_valid strength i =
      .error (PasswordChangeSerializer.fieldErrors strength i) := by
  simp only [PasswordChangeSerializer.is_valid]
  rw [if_neg (List.ne_nil_of_mem h)]

/-- If some field erred, the password-reset pass fails with the collected
field errors. -/
theorem reset_is_valid_error_of_mem {strength : String → Bool}
    {i : PasswordResetInput} {e : ValidationError}
    (h : e ∈ PasswordResetSerializer.fieldErrors strength i) :
    PasswordResetSerializer.is_valid strength i =
      .error (PasswordResetSerializer.fieldErrors strength i) := by
  simp only [PasswordResetSerializer.is_valid]
  rw [if_neg (List.ne_nil_of_mem h)]

/-- C1: for every email for which an account already exists under the
lowercased natural key, registration with that email (in any letter case)
fails with the duplicate-email validation error; for every email with no
such account, the email validation succeeds and returns the lowercased
email. -/
theorem C1_duplicate_email (strength : String → Bool) (db : List Account)
    (i : RegistrationInput) :
    ((∃ a ∈ db, a.email = (strToLower i.email)) →
      ∃ errs, RegistrationSerializer.run strength db i = .error errs ∧
        (⟨some "email", "That email address has already been registered."⟩ :
          ValidationError) ∈ errs)
    ∧ ((∀ a ∈ db, a.email ≠ (strToLower i.email)) →
      ValidateEmailMixin.validate_email db i.email = .ok (strToLower i.email)) := by
  constructor
  · rintro ⟨a, ha, hae⟩
    have hfind : (db.find? (fun x => x.email == (strToLower i.email))).isSome := by
      rw [List.find?_isSome]
      exact ⟨a, ha, by simp [hae]⟩
    obtain ⟨u, hu⟩ := Option.isSome_iff_exists.mp hfind
    have hval : ValidateEmailMixin.validate_email db i.email =
        .error ⟨some "email",
          "That email address has already been registered."⟩ := by
      simp [ValidateEmailMixin.validate_email, get_by_natural_key, hu]
    have hmem : (⟨some "email",
        "That email address has already been registered."⟩ : ValidationError)
        ∈ RegistrationSerializer.fieldErrors strength db i := by
      simp [RegistrationSerializer.fieldErrors, hval]
    exact ⟨_, registration_run_error_of_mem hmem, hmem⟩
  · intro h
    have hfind : db.find? (fun x => x.email == (strToLower i.email)) = none := by
      rw [List.find?_eq_none]
      intro x hx
      simpa using h x hx
    simp [ValidateEmailMixin.validate_email, get_by_natural_key, hfind]

/-- Witness for C1 at concrete inputs: `Foo@Bar.com` collides with the
stored `foo@bar.com`; `New@Example.com` is free and comes back lowercased. -/
theorem C1_duplicate_email_witness :
    (∃ errs, RegistrationSerializer.run (fun _ => true) [sampleAccount]
        ⟨"Ann", "Foo@Bar.com", "password1", "password1"⟩ = .error errs ∧
      (⟨some "email", "That email address has already been registered."⟩ :
        ValidationError) ∈ errs)
    ∧ ValidateEmailMixin.validate_email [sampleAccount] "New@Example.com" =
      .ok "new@example.com" := by
  constructor
  · exact (C1_duplicate_email (fun _ => true) [sampleAccount]
      ⟨"Ann", "Foo@Bar.com", "password1", "password1"⟩).1
      ⟨sampleAccount, by simp, by decide⟩
  · exact ((C1_duplicate_email (fun _ => true) [sampleAccount]
      ⟨"Ann", "New@Example.com", "password1", "password1"⟩).2
      (by decide)).trans (congrArg Except.ok (by decide))

/-- C2 counterexample: with the single stored account `foo@bar.com` (stored
lowercased, verification required), resending a confirmation email for
`Foo@Bar.com` fails with the not-found error, although the natural-key
lookup on the lowercased email does find the account — so the
resend-confirmation lookup is not performed on the lowercased email. -/
theorem C2_resend_not_lowercased_counterexample :
    ResendConfirmationEmailSerializer.validate_email [sampleAccount]
      "Foo@Bar.com" =
      .error ⟨some "email", "A user with this email address does not exist."⟩
    ∧ get_by_natural_key [sampleAccount] (strToLower "Foo@Bar.com") =
      some sampleAccount := by
  exact ⟨rfl, rfl⟩

/-- C2 (amended): registration and user-creation email validation
(`ValidateEmailMixin.validate_email`) performs the natural-key lookup on the
lowercased email and on success returns the lowercased email;
`ResendConfirmationEmailSerializer.validate_email` performs the lookup on
the email exactly as submitted, without lowercasing, so it fails with the
not-found error for any submission that does not exactly match a stored
email. -/
theorem C2_amended_lowercasing (db : List Account) (v : String) :
    ((∃ a ∈ db, a.email = strToLower v) →
      ValidateEmailMixin.validate_email db v =
        .error ⟨some "email",
          "That email address has already been registered."⟩)
    ∧ ((∀ a ∈ db, a.email ≠ strToLower v) →
      ValidateEmailMixin.validate_email db v = .ok (strToLower v))
    ∧ ((∀ a ∈ db, a.email ≠ v) →
      ResendConfirmationEmailSerializer.validate_email db v =
        .error ⟨some "email",
          "A user with this email address does not exist."⟩) := by
  refine ⟨?_, ?_, ?_⟩
  · rintro ⟨a, ha, hae⟩
    have hfind : (db.find? (fun x => x.email == strToLower v)).isSome := by
      rw [List.find?_isSome]
      exact ⟨a, ha, by simp [hae]⟩
    obtain ⟨u, hu⟩ := Option.isSome_iff_exists.mp hfind
    simp [ValidateEmailMixin.validate_email, get_by_natural_key, hu]
  · intro h
    have hfind : db.find? (fun x => x.email == strToLower v) = none := by
      rw [List.find?_eq_none]
      intro x hx
      simpa using h x hx
    simp [ValidateEmailMixin.validate_email, get_by_natural_key, hfind]
  · intro h
    have hfind : db.find? (fun x => x.email == v) = none := by
      rw [List.find?_eq_none]
      intro x hx
      simpa using h x hx
    simp [ResendConfirmationEmailSerializer.validate_email,
      get_by_natural_key, hfind]

/-- Witness for the amended C2 at a concrete input: the same uppercase
submission `Foo@Bar.com` collides for the mixin (lowercased lookup) but is
unknown to the resend-confirmation serializer (exact lookup). -/
theorem C2_amended_lowercasing_witness :
    ValidateEmailMixin.validate_email [sampleAccount] "Foo@Bar.com" =
      .error ⟨some "email", "That email address has already been registered."⟩
    ∧ ResendConfirmationEmailSerializer.validate_email [sampleAccount]
      "Foo@Bar.com" =
      .error ⟨some "email",
        "A user with this email address does not exist."⟩ := by
  constructor
  · exact (C2_amended_lowercasing [sampleAccount] "Foo@Bar.com").1
      ⟨sampleAccount, by simp, by decide⟩
  · exact (C2_amended_lowercasing [sampleAccount] "Foo@Bar.com").2.2
      (by decide)

/-- C3: registration submissions with differing `password` and `password2`
fail in `validate` with the mismatch error tagged to `password2`; when they
are equal the check passes and the returned attrs — the
`RegistrationValidatedData` consumed by `create` — carry only `name`,
`email` and `password`, `password2` having been popped. -/
theorem C3_registration_password_mismatch (attrs : RegistrationInput) :
    (attrs.password ≠ attrs.password2 →
      RegistrationSerializer.validate attrs =
        .error ⟨some "password2", "Your passwords do not match."⟩)
    ∧ (attrs.password = attrs.password2 →
      RegistrationSerializer.validate attrs =
        .ok ⟨attrs.name, attrs.email, attrs.password⟩) := by
  constructor
  · intro h
    simp [RegistrationSerializer.validate, Ne.symm h]
  · intro h
    simp [RegistrationSerializer.validate, h]

/-- Witness for C3 at concrete inputs: mismatching and matching password
pairs. -/
theorem C3_registration_password_mismatch_witness :
    RegistrationSerializer.validate ⟨"Ann", "a@b.com", "password1", "other"⟩ =
      .error ⟨some "password2", "Your passwords do not match."⟩
    ∧ RegistrationSerializer.validate
        ⟨"Ann", "a@b.com", "password1", "password1"⟩ =
      .ok ⟨"Ann", "a@b.com", "password1"⟩ := by
  constructor
  · exact (C3_registration_password_mismatch
      ⟨"Ann", "a@b.com", "password1", "other"⟩).1 (by decide)
  · exact (C3_registration_password_mismatch
      ⟨"Ann", "a@b.com", "password1", "password1"⟩).2 rfl

/-- C4: a password-change `update` whose submitted old password does not
verify against the stored hash fails with the invalid-password error tagged
to `old_password`, leaving the instance unchanged; when it verifies, the
stored hash is replaced with the hash of `new_password`. -/
theorem C4_password_change_update (hash : String → String) (inst : Account)
    (vd : PasswordChangeInput) :
    (hash vd.old_password ≠ inst.passwordHash →
      PasswordChangeSerializer.update hash inst vd =
        (inst, some ⟨some "old_password", "Invalid password."⟩))
    ∧ (hash vd.old_password = inst.passwordHash →
      PasswordChangeSerializer.update hash inst vd =
        ({ inst with passwordHash := hash vd.new_password }, none)) := by
  constructor <;> intro h <;>
    simp [PasswordChangeSerializer.update, check_password, set_password, h]

/-- Witness for C4 at concrete inputs, with the identity as hash
parameter: a wrong and a correct old password against the stored hash
`h0`. -/
theorem C4_password_change_update_witness :
    PasswordChangeSerializer.update (fun s => s) sampleAccount
      ⟨"wrong", "newpass1", "newpass1"⟩ =
      (sampleAccount, some ⟨some "old_password", "Invalid password."⟩)
    ∧ PasswordChangeSerializer.update (fun s => s) sampleAccount
      ⟨"h0", "newpass1", "newpass1"⟩ =
      ({ sampleAccount with passwordHash := "newpass1" }, none) := by
  constructor
  · exact (C4_password_change_update (fun s => s) sampleAccount
      ⟨"wrong", "newpass1", "newpass1"⟩).1 (by decide)
  · exact (C4_password_change_update (fun s => s) sampleAccount
      ⟨"h0", "newpass1", "newpass1"⟩).2 rfl

/-- C5: password-change and password-reset submissions whose `new_password`
differs from `new_password2` fail in `validate` with the mismatch error
tagged to `new_password2`. -/
theorem C5_new_password_mismatch (c : PasswordChangeInput)
    (r : PasswordResetInput) :
    (c.new_password ≠ c.new_password2 →
      PasswordChangeSerializer.validate c =
        .error ⟨some "new_password2", "Your new passwords do not match."⟩)
    ∧ (r.new_password ≠ r.new_password2 →
      PasswordResetSerializer.validate r =
        .error ⟨some "new_password2", "Your new passwords do not match."⟩) := by
  constructor <;> intro h <;>
    simp [PasswordChangeSerializer.validate, PasswordResetSerializer.validate, h]

/-- Witness for C5 at concrete mismatching inputs for both serializers. -/
theorem C5_new_password_mismatch_witness :
    PasswordChangeSerializer.validate ⟨"old", "newpass1", "different"⟩ =
      .error ⟨some "new_password2", "Your new passwords do not match."⟩
    ∧ PasswordResetSerializer.validate ⟨"newpass1", "different"⟩ =
      .error ⟨some "new_password2", "Your new passwords do not match."⟩ := by
  constructor
  · exact (C5_new_password_mismatch ⟨"old", "newpass1", "different"⟩
      ⟨"newpass1", "different"⟩).1 (by decide)
  · exact (C5_new_password_mismatch ⟨"old", "newpass1", "different"⟩
      ⟨"newpass1", "different"⟩).2 (by decide)

/-- C6: resend-confirmation validation fails with the not-found error when
no stored account carries the submitted email; when the lookup resolves an
account whose `email_verification_required` is cleared it fails with the
already-verified error; when the resolved account still requires
verification it succeeds, returning the email together with the resolved
account (the serializer's `user` attribute). -/
theorem C6_resend_confirmation (db : List Account) (email : String) :
    ((∀ a ∈ db, a.email ≠ email) →
      ResendConfirmationEmailSerializer.validate_email db email =
        .error ⟨some "email",
          "A user with this email address does not exist."⟩)
    ∧ (∀ u, get_by_natural_key db email = some u →
      (u.email_verification_required = false →
        ResendConfirmationEmailSerializer.validate_email db email =
          .error ⟨some "email", "User email address is already verified."⟩)
      ∧ (u.email_verification_required = true →
        ResendConfirmationEmailSerializer.validate_email db email =
          .ok (email, u))) := by
  constructor
  · intro h
    have hfind : db.find? (fun x => x.email == email) = none := by
      rw [List.find?_eq_none]
      intro x hx
      simpa using h x hx
    simp [ResendConfirmationEmailSerializer.validate_email,
      get_by_natural_key, hfind]
  · intro u hu
    constructor <;> intro hv <;>
      simp [ResendConfirmationEmailSerializer.validate_email, hu, hv]

/-- Witness for C6 at concrete inputs over a two-account table: an unknown
address, the verified `bob@bar.com`, and the unverified `foo@bar.com`. -/
theorem C6_resend_confirmation_witness :
    ResendConfirmationEmailSerializer.validate_email
      [sampleAccount, verifiedAccount] "nobody@x.com" =
      .error ⟨some "email", "A user with this email address does not exist."⟩
    ∧ ResendConfirmationEmailSerializer.validate_email
      [sampleAccount, verifiedAccount] "bob@bar.com" =
      .error ⟨some "email", "User email address is already verified."⟩
    ∧ ResendConfirmationEmailSerializer.validate_email
      [sampleAccount, verifiedAccount] "foo@bar.com" =
      .ok ("foo@bar.com", sampleAccount) := by
  refine ⟨?_, ?_, ?_⟩
  · exact (C6_resend_confirmation [sampleAccount, verifiedAccount]
      "nobody@x.com").1 (by decide)
  · exact ((C6_resend_confirmation [sampleAccount, verifiedAccount]
      "bob@bar.com").2 verifiedAccount rfl).1 rfl
  · exact ((C6_resend_confirmation [sampleAccount, verifiedAccount]
      "foo@bar.com").2 sampleAccount rfl).2 rfl

/-- C7: caller-supplied payloads can never modify `email` or `date_joined`
through `ProfileSerializer` or `UserSerializer` (both declare them in
`read_only_fields`); `name` is the only writable model attribute of
`ProfileSerializer`, so an update either leaves the account unchanged or
only replaces its name. -/
theorem C7_profile_read_only (inst : Account) (p : UpdatePayload) :
    (ProfileSerializer.update inst p).email = inst.email
    ∧ (ProfileSerializer.update inst p).dateJoined = inst.dateJoined
    ∧ (UserSerializer.update inst p).email = inst.email
    ∧ (UserSerializer.update inst p).dateJoined = inst.dateJoined
    ∧ writableFields ProfileSerializer.fields ProfileSerializer.read_only_fields
      = ["name"]
    ∧ (ProfileSerializer.update inst p = inst
      ∨ ∃ n, p.name = some n
          ∧ ProfileSerializer.update inst p = { inst with name := n }) := by
  have hpu : ProfileSerializer.update inst p = applyField inst "name" p := rfl
  have huu : UserSerializer.update inst p = applyField inst "name" p := rfl
  cases hn : p.name with
  | none =>
      have ha : applyField inst "name" p = inst := by
        simp [applyField, hn]
      rw [ha] at hpu huu
      exact ⟨by rw [hpu], by rw [hpu], by rw [huu], by rw [huu], rfl,
        Or.inl hpu⟩
  | some n =>
      have ha : applyField inst "name" p = { inst with name := n } := by
        simp [applyField, hn]
      rw [ha] at hpu huu
      exact ⟨by rw [hpu], by rw [hpu], by rw [huu], by rw [huu], rfl,
        Or.inr ⟨n, rfl, hpu⟩⟩

/-- C8: a password-reset submission with matching new passwords of admissible
length that satisfy the strength policy passes validation, and `update`
replaces the stored hash with the hash of `new_password` for every account —
unconditionally in the account's stored hash, i.e. with no old-password
verification. -/
theorem C8_reset_replaces_hash (strength : String → Bool)
    (hash : String → String) (inst : Account) (i : PasswordResetInput)
    (heq : i.new_password = i.new_password2)
    (hstrong : strength i.new_password = true)
    (hlen : 8 ≤ i.new_password.length) :
    PasswordResetSerializer.is_valid strength i = .ok i
    ∧ PasswordResetSerializer.update hash inst i =
      ({ inst with passwordHash := hash i.new_password }, none) := by
  have hfe : PasswordResetSerializer.fieldErrors strength i = [] := by
    simp [PasswordResetSerializer.fieldErrors, passwordFieldErrors,
      minLengthErrors, strengthErrors, hstrong, Nat.not_lt.mpr hlen, ← heq]
  constructor
  · simp [PasswordResetSerializer.is_valid, hfe,
      PasswordResetSerializer.validate, heq]
  · rfl

/-- Witness for C8 at concrete inputs, with the identity as hash parameter
and a strength policy accepting everything. -/
theorem C8_reset_replaces_hash_witness :
    PasswordResetSerializer.is_valid (fun _ => true)
      ⟨"longpass1", "longpass1"⟩ = .ok ⟨"longpass1", "longpass1"⟩
    ∧ PasswordResetSerializer.update (fun s => s) sampleAccount
      ⟨"longpass1", "longpass1"⟩ =
      ({ sampleAccount with passwordHash := "longpass1" }, none) := by
  exact C8_reset_replaces_hash (fun _ => true) (fun s => s) sampleAccount
    ⟨"longpass1", "longpass1"⟩ rfl rfl (by decide)

/-- C9: each of the six password fields declared with `min_length=8`
(`password` and `password2` of registration, `new_password` and
`new_password2` of change and of reset) rejects any value shorter than 8
characters with the per-field min-length error, whatever the external
strength policy does. -/
theorem C9_min_length_eight (strength : String → Bool) (db : List Account)
    (i : RegistrationInput) (c : PasswordChangeInput)
    (r : PasswordResetInput) :
    (i.password.length < 8 →
      ∃ errs, RegistrationSerializer.run strength db i = .error errs
        ∧ minLengthError "password" ∈ errs)
    ∧ (i.password2.length < 8 →
      ∃ errs, RegistrationSerializer.run strength db i = .error errs
        ∧ minLengthError "password2" ∈ errs)
    ∧ (c.new_password.length < 8 →
      ∃ errs, PasswordChangeSerializer.is_valid strength c = .error errs
        ∧ minLengthError "new_password" ∈ errs)
    ∧ (c.new_password2.length < 8 →
      ∃ errs, PasswordChangeSerializer.is_valid strength c = .error errs
        ∧ minLengthError "new_password2" ∈ errs)
    ∧ (r.new_password.length < 8 →
      ∃ errs, PasswordResetSerializer.is_valid strength r = .error errs
        ∧ minLengthError "new_password" ∈ errs)
    ∧ (r.new_password2.length < 8 →
      ∃ errs, PasswordResetSerializer.is_valid strength r = .error errs
        ∧ minLengthError "new_password2" ∈ errs) := by
  refine ⟨?_, ?_, ?_, ?_, ?_, ?_⟩ <;> intro h
  · have hmem : minLengthError "password"
        ∈ RegistrationSerializer.fieldErrors strength db i := by
      simp [RegistrationSerializer.fieldErrors, passwordFieldErrors,
        minLengthErrors, h]
    exact ⟨_, registration_run_error_of_mem hmem, hmem⟩
  · have hmem : minLengthError "password2"
        ∈ RegistrationSerializer.fieldErrors strength db i := by
      simp [RegistrationSerializer.fieldErrors, passwordFieldErrors,
        minLengthErrors, h]
    exact ⟨_, registration_run_error_of_mem hmem, hmem⟩
  · have hmem : minLengthError "new_password"
        ∈ PasswordChangeSerializer.fieldErrors strength c := by
      simp [PasswordChangeSerializer.fieldErrors, passwordFieldErrors,
        minLengthErrors, h]
    exact ⟨_, change_is_valid_error_of_mem hmem, hmem⟩
  · have hmem : minLengthError "new_password2"
        ∈ PasswordChangeSerializer.fieldErrors strength c := by
      simp [PasswordChangeSerializer.fieldErrors, passwordFieldErrors,
        minLengthErrors, h]
    exact ⟨_, change_is_valid_error_of_mem hmem, hmem⟩
  · have hmem : minLengthError "new_password"
        ∈ PasswordResetSerializer.fieldErrors strength r := by
      simp [PasswordResetSerializer.fieldErrors, passwordFieldErrors,
        minLengthErrors, h]
    exact ⟨_, reset_is_valid_error_of_mem hmem, hmem⟩
  · have hmem : minLengthError "new_password2"
        ∈ PasswordResetSerializer.fieldErrors strength r := by
      simp [PasswordResetSerializer.fieldErrors, passwordFieldErrors,
        minLengthErrors, h]
    exact ⟨_, reset_is_valid_error_of_mem hmem, hmem⟩

/-- Witness for C9 at concrete five-character passwords, with a strength
policy accepting everything. -/
theorem C9_min_length_eight_witness :
    (∃ errs, RegistrationSerializer.run (fun _ => true) []
        ⟨"Ann", "x@y.com", "short", "short"⟩ = .error errs
      ∧ minLengthError "password" ∈ errs)
    ∧ (∃ errs, RegistrationSerializer.run (fun _ => true) []
        ⟨"Ann", "x@y.com", "short", "short"⟩ = .error errs
      ∧ minLengthError "password2" ∈ errs)
    ∧ (∃ errs, PasswordChangeSerializer.is_valid (fun _ => true)
        ⟨"old", "short", "short"⟩ = .error errs
      ∧ minLengthError "new_password" ∈ errs)
    ∧ (∃ errs, PasswordChangeSerializer.is_valid (fun _ => true)
        ⟨"old", "short", "short"⟩ = .error errs
      ∧ minLengthError "new_password2" ∈ errs)
    ∧ (∃ errs, PasswordResetSerializer.is_valid (fun _ => true)
        ⟨"short", "short"⟩ = .error errs
      ∧ minLengthError "new_password" ∈ errs)
    ∧ (∃ errs, PasswordResetSerializer.is_valid (fun _ => true)
        ⟨"short", "short"⟩ = .error errs
      ∧ minLengthError "new_password2" ∈ errs) := by
  have h := C9_min_length_eight (fun _ => true) []
    ⟨"Ann", "x@y.com", "short", "short"⟩ ⟨"old", "short", "short"⟩
    ⟨"short", "short"⟩
  exact ⟨h.1 (by decide), h.2.1 (by decide), h.2.2.1 (by decide),
    h.2.2.2.1 (by decide), h.2.2.2.2.1 (by decide), h.2.2.2.2.2 (by decide)⟩

/-- C10: when the old password does not verify, the password-change `update`
raises before any call that sets a new password: the returned instance is
the original account, its stored hash untouched, alongside the
invalid-password error. -/
theorem C10_failed_change_preserves_account (hash : String → String)
    (inst : Account) (vd : PasswordChangeInput)
    (h : check_password hash vd.old_password inst = false) :
    (PasswordChangeSerializer.update hash inst vd).1 = inst
    ∧ (PasswordChangeSerializer.update hash inst vd).2 =
      some ⟨some "old_password", "Invalid password."⟩ := by
  constructor <;> simp [PasswordChangeSerializer.update, h]

/-- Witness for C10 at a concrete input: a wrong old password against the
stored hash `h0`, with the identity as hash parameter. -/
theorem C10_failed_change_preserves_account_witness :
    check_password (fun s => s) "wrong" sampleAccount = false
    ∧ (PasswordChangeSerializer.update (fun s => s) sampleAccount
        ⟨"wrong", "newpass1", "newpass1"⟩).1 = sampleAccount
    ∧ (PasswordChangeSerializer.update (fun s => s) sampleAccount
        ⟨"wrong", "newpass1", "newpass1"⟩).2 =
      some ⟨some "old_password", "Invalid password."⟩ := by
  have h : check_password (fun s => s) "wrong" sampleAccount = false := by
    decide
  exact ⟨h,
    (C10_failed_change_preserves_account (fun s => s) sampleAccount
      ⟨"wrong", "newpass1", "newpass1"⟩ h).1,
    (C10_failed_change_preserves_account (fun s => s) sampleAccount
      ⟨"wrong", "newpass1", "newpass1"⟩ h).2⟩
